import Mathlib

/-
Verification of the health-monitoring engine of the sshappy repository.

The definitions below are a shallow embedding of the TypeScript sources
src/services/MonitoringService.ts and src/services/SSHService.ts.
Conventions of the embedding:
  * instants (JS Date values / Date.now()) are Int milliseconds since epoch;
  * JS exceptions are modelled with Except String; a value of type
    Except String A is the outcome of an awaited call that may throw;
  * AsyncStorage is modelled as explicit association lists keyed by serverId
    (the storage keys are namespaced per target in the source, so per-target
    entries are independent);
  * JS number arithmetic is idealized as exact rational arithmetic.
-/

namespace Sshappy

/-- Connection status of a monitored server, from the ServerHealthStatus
interface of MonitoringService.ts. -/
inductive Status where
  | online
  | offline
  | error
  | unknown
deriving DecidableEq

/-- Outcome recorded in a history entry, from the HealthCheckHistory
interface of MonitoringService.ts. -/
inductive ProbeOutcome where
  | success
  | failure
deriving DecidableEq

/-- HealthCheckConfig from MonitoringService.ts: per-server monitoring
configuration. -/
structure HealthCheckConfig where
  serverId : String
  interval : Nat
  enabled : Bool
  notifyOnFailure : Bool
  notifyOnRecovery : Bool
deriving DecidableEq

/-- ServerHealthStatus from MonitoringService.ts: the single current derived
status per server.  Timestamps (ISO strings in the source) are Int ms. -/
structure ServerHealthStatus where
  serverId : String
  status : Status
  lastChecked : Int
  lastOnline : Option Int
  consecutiveFailures : Nat
  uptimePercentage : Nat
  responseTime : Option Int
  errorMessage : Option String
deriving DecidableEq

/-- HealthCheckHistory from MonitoringService.ts: one record per executed
probe attempt. -/
structure HealthCheckHistoryEntry where
  timestamp : Int
  status : ProbeOutcome
  responseTime : Option Int
  error : Option String
deriving DecidableEq

/-- Server from SSHService.ts (the fields the monitoring engine reads). -/
structure Server where
  id : String
  name : String
  host : String
  port : Nat
  username : String
  authMethod : String
deriving DecidableEq

/-- Return value of SSHService.testConnection: the object
with shape success plus optional error message. -/
structure TestResult where
  success : Bool
  error : Option String
deriving DecidableEq

/-- Notification intent produced by sendNotification: title, body and the
data payload fields used by handleNotifications. -/
structure Notification where
  title : String
  body : String
  dataServerId : String
  dataType : String
deriving DecidableEq

/-- The two values of BackgroundFetch.BackgroundFetchResult returned by the
MONITORING_TASK handler. -/
inductive FetchResult where
  | NewData
  | Failed
deriving DecidableEq

/-- AsyncStorage contents relevant to the monitoring engine: the per-server
status records and the per-server history lists (namespaced keys in the
source; modelled as association lists on serverId). -/
structure Store where
  statuses : List (String × ServerHealthStatus)
  histories : List (String × List HealthCheckHistoryEntry)
deriving DecidableEq

def emptyStore : Store := { statuses := [], histories := [] }

/-- Replace (or insert) the value at a key of an association list; models an
AsyncStorage.setItem on a per-target key. -/
def setKV {α : Type} (l : List (String × α)) (k : String) (v : α) :
    List (String × α) :=
  match l with
  | [] => [(k, v)]
  | (k', v') :: rest =>
    if k' == k then (k, v) :: rest else (k', v') :: setKV rest k v

/-- JavaScript slice with a negative start: history.slice (-n) keeps the
last n elements (all of them when the list is shorter). -/
def sliceLast {α : Type} (l : List α) (n : Nat) : List α :=
  l.drop (l.length - n)

-- ===========================================================================
-- SSHService.testConnection (SSHService.ts lines 551-572)
-- ===========================================================================

/-- Substring test used by the error mapping of SSHService. -/
def containsSub (s pat : String) : Bool := (s.splitOn pat).length > 1

/-- Embedding of SSHService s private error mapping (SSHService.ts): maps a
raw error message to a user-friendly message.  The source first handles a
string-typed error and otherwise reads error.message; errors are modelled
here as their message string. -/
def parseErrorMessage (message : String) : String :=
  if containsSub message "timeout" || containsSub message "timed out" then
    "Connection timed out. Please check your network and server address."
  else if containsSub message "authentication" || containsSub message "auth fail" then
    "Authentication failed. Please check your username and password/key."
  else if containsSub message "host key" || containsSub message "hostkey" then
    "Host key verification failed. The server identity could not be verified."
  else if containsSub message "refused" || containsSub message "ECONNREFUSED" then
    "Connection refused. The server may be down or SSH is not enabled."
  else if containsSub message "unreachable" || containsSub message "EHOSTUNREACH" then
    "Host unreachable. Please check the server address and your network."
  else if containsSub message "network" || containsSub message "ENETUNREACH" then
    "Network error. Please check your internet connection."
  else if containsSub message "permission denied" then
    "Permission denied. Check file/directory permissions on the server."
  else if containsSub message "no such file" then
    "File or directory not found on the server."
  else message

/-- Embedding of SSHService.testConnection.  The argument is the outcome of
the awaited connection attempt (the timeout-raced _createConnection call,
which either yields a client or throws).  On success the method disconnects
and returns an object with success true; every thrown error is caught and
returned as an object with success false and a parsed error message.  The
method itself never throws: its result is always a TestResult OBJECT, never
a boolean. -/
def testConnection (conn : Except String Unit) : TestResult :=
  match conn with
  | Except.ok _ => { success := true, error := none }
  | Except.error e => { success := false, error := some (parseErrorMessage e) }

/-- ECMAScript ToBoolean of an object value: every object is truthy.  The
call site in checkServerHealth tests the TestResult object returned by
testConnection directly with an if, so this conversion is what the source
executes on it. -/
def jsObjectTruthy (_ : TestResult) : Bool := true

-- ===========================================================================
-- MonitoringService: history store and uptime calculator
-- ===========================================================================

/-- Embedding of MonitoringService.addHistoryEntry (pure part): push the new
entry and keep only the last 1000 entries.  The surrounding try/catch only
swallows persistence errors and does not alter this transformation. -/
def addHistoryEntry (history : List HealthCheckHistoryEntry)
    (entry : HealthCheckHistoryEntry) : List HealthCheckHistoryEntry :=
  sliceLast (history ++ [entry]) 1000

/-- Embedding of MonitoringService.getHealthHistory.  The argument read is
the combined outcome of AsyncStorage.getItem plus JSON.parse (a missing key
parses to the empty list, a thrown read or parse error is the error case).
The whole body is inside try/catch: a failure is caught here and yields the
empty list.  The returned slice keeps the last limit records (the
declaration default for limit is 100). -/
def getHealthHistory (read : Except String (List HealthCheckHistoryEntry))
    (limit : Nat) : List HealthCheckHistoryEntry :=
  match read with
  | Except.ok history => sliceLast history limit
  | Except.error _ => []

/-- One day in milliseconds, as computed in calculateUptime. -/
def msPerDay : Int := 24 * 60 * 60 * 1000

/-- Membership of a history entry in the trailing 24h window: strict
comparison timestamp > now - 24h, from calculateUptime. -/
def inWindow (now : Int) (e : HealthCheckHistoryEntry) : Bool :=
  e.timestamp > now - msPerDay

/-- Math.round of (s / n) * 100 as exact rational round-half-up, expressed
on naturals: round (100*s/n) = floor ((200*s + n) / (2*n)). -/
def roundPct (s n : Nat) : Nat := (200 * s + n) / (2 * n)

/-- Core of MonitoringService.calculateUptime given the history list it
reads: filter to the trailing 24h window, return 100 on an empty window,
otherwise the rounded success percentage. -/
def calculateUptimeCore (history : List HealthCheckHistoryEntry) (now : Int) :
    Nat :=
  let recentHistory := history.filter (inWindow now)
  if recentHistory.length = 0 then 100
  else
    roundPct (recentHistory.countP (fun e => e.status == ProbeOutcome.success))
      recentHistory.length

/-- Body of the try block of MonitoringService.calculateUptime: it calls
getHealthHistory with the default limit of 100 and computes the windowed
percentage.  getHealthHistory catches its own storage errors, and the
remaining operations (filter, count, Math.round) cannot throw, so this body
never produces the error case. -/
def calculateUptimeTry (read : Except String (List HealthCheckHistoryEntry))
    (now : Int) : Except String Nat :=
  Except.ok (calculateUptimeCore (getHealthHistory read 100) now)

/-- Embedding of MonitoringService.calculateUptime including its catch
branch, which returns 0 if the try body throws. -/
def calculateUptime (read : Except String (List HealthCheckHistoryEntry))
    (now : Int) : Nat :=
  match calculateUptimeTry read now with
  | Except.ok v => v
  | Except.error _ => 0

-- ===========================================================================
-- MonitoringService: transition notifier
-- ===========================================================================

/-- Status value as it appears in the notification title template string. -/
def statusText : Status → String
  | Status.online => "online"
  | Status.offline => "offline"
  | Status.error => "error"
  | Status.unknown => "unknown"

/-- JS template rendering of a possibly-null responseTime: null renders as
the text null. -/
def respText : Option Int → String
  | some v => toString v
  | none => "null"

/-- Embedding of MonitoringService.handleNotifications as the list of
notification intents it passes to sendNotification.  It returns early
unless a previous status exists whose status differs from the current one;
otherwise it emits the failure notification and/or the recovery
notification according to the config flags. -/
def handleNotifications (server : Server) (currentStatus : ServerHealthStatus)
    (previousStatus : Option ServerHealthStatus) (config : HealthCheckConfig) :
    List Notification :=
  let statusChanged : Bool :=
    match previousStatus with
    | none => false
    | some p => p.status != currentStatus.status
  if !statusChanged then []
  else
    (if currentStatus.status != Status.online && config.notifyOnFailure then
      [{ title := "Server " ++ server.name ++ " is "
           ++ statusText currentStatus.status
       , body := currentStatus.errorMessage.getD "Connection check failed"
       , dataServerId := server.id
       , dataType := "failure" }]
     else [])
    ++
    (if currentStatus.status == Status.online && config.notifyOnRecovery then
      [{ title := "Server " ++ server.name ++ " is back online"
       , body := "Response time: " ++ respText currentStatus.responseTime
           ++ "ms"
       , dataServerId := server.id
       , dataType := "recovery" }]
     else [])

-- ===========================================================================
-- MonitoringService.checkServerHealth
-- ===========================================================================

/-- Observable storage and collaborator operations of one checkServerHealth
run, used to state ordering properties. -/
inductive Event where
  | probe
  | statusRead
  | historyAppend
  | uptimeCalc
  | statusWrite
  | notifyEval
deriving DecidableEq

/-- Classification performed by the try/catch around the probe in
checkServerHealth (lines 113-130).  The argument is the outcome of
awaiting the dynamic import of SSHService followed by the
SSHService.testConnection call: the ok case carries the TestResult object
that call returned, the error case is any exception thrown inside the try
block (including the import itself failing).  The source tests the returned
object directly with an if, so the online branch is taken exactly when the
object is truthy; the else branch sets offline with the fixed message; the
catch sets error with the thrown message.  Results: status, responseTime,
errorMessage.  All Date.now calls after the probe are modelled by the
single instant now. -/
def classifyProbe (probeCall : Except String TestResult)
    (startTime now : Int) : Status × Option Int × Option String :=
  match probeCall with
  | Except.ok connected =>
    if jsObjectTruthy connected then (Status.online, some (now - startTime), none)
    else (Status.offline, none, some "Connection failed")
  | Except.error e => (Status.error, none, some e)

/-- History entry appended by checkServerHealth (lines 138-143), built from
the classification of the probe. -/
def probeEntry (probeCall : Except String TestResult) (startTime now : Int) :
    HealthCheckHistoryEntry :=
  { timestamp := now
  , status :=
      if (classifyProbe probeCall startTime now).1 == Status.online then
        ProbeOutcome.success
      else ProbeOutcome.failure
  , responseTime := (classifyProbe probeCall startTime now).2.1
  , error := (classifyProbe probeCall startTime now).2.2 }

/-- Result of one checkServerHealth run: the returned ServerHealthStatus,
the storage contents afterwards, the notification intents produced, and the
trace of storage/collaborator operations in execution order. -/
structure CheckResult where
  healthStatus : ServerHealthStatus
  store : Store
  notifications : List Notification
  trace : List Event

/-- Embedding of MonitoringService.checkServerHealth (lines 107-169).
Steps in source order: run and classify the probe; read the previous
status (getServerStatus); derive consecutiveFailures; append the history
entry (addHistoryEntry); recompute the uptime percentage by re-reading the
just-written history (calculateUptime, which reads at its default limit of
100); assemble the new ServerHealthStatus; persist it (saveServerStatus);
finally, when a config exists for the server, evaluate notifications.
configs is the in-memory healthCheckConfigs registry. -/
def checkServerHealth (configs : List HealthCheckConfig) (serverId : String)
    (server : Server) (probeCall : Except String TestResult)
    (startTime now : Int) (store : Store) : CheckResult :=
  let status := (classifyProbe probeCall startTime now).1
  let responseTime := (classifyProbe probeCall startTime now).2.1
  let errorMessage := (classifyProbe probeCall startTime now).2.2
  let previousStatus := List.lookup serverId store.statuses
  let consecutiveFailures : Nat :=
    if status == Status.online then 0
    else ((previousStatus.map (fun p => p.consecutiveFailures)).getD 0) + 1
  let oldHistory := (List.lookup serverId store.histories).getD []
  let newHistory := addHistoryEntry oldHistory (probeEntry probeCall startTime now)
  let store1 : Store := { store with histories := setKV store.histories serverId newHistory }
  let uptimePercentage :=
    calculateUptime (Except.ok ((List.lookup serverId store1.histories).getD [])) now
  let healthStatus : ServerHealthStatus :=
    { serverId := serverId
    , status := status
    , lastChecked := now
    , lastOnline :=
        if status == Status.online then some now
        else (previousStatus.bind (fun p => p.lastOnline))
    , consecutiveFailures := consecutiveFailures
    , uptimePercentage := uptimePercentage
    , responseTime := responseTime
    , errorMessage := errorMessage }
  let store2 : Store := { store1 with statuses := setKV store1.statuses serverId healthStatus }
  let cfg := configs.find? (fun c => c.serverId == serverId)
  let notifications :=
    match cfg with
    | some c => handleNotifications server healthStatus previousStatus c
    | none => []
  { healthStatus := healthStatus
  , store := store2
  , notifications := notifications
  , trace :=
      [Event.probe, Event.statusRead, Event.historyAppend, Event.uptimeCalc,
        Event.statusWrite]
      ++ (match cfg with | some _ => [Event.notifyEval] | none => []) }

-- ===========================================================================
-- MonitoringService: sendNotification and the MONITORING_TASK handler
-- ===========================================================================

/-- Embedding of MonitoringService.sendNotification iterated over the
notification intents of a run.  sendNotification awaits
Notifications.scheduleNotificationAsync without any try/catch, so an
exception from the notification sink propagates to the caller; sink models
that collaborator call. -/
def sendAll (sink : Notification → Except String Unit) :
    List Notification → Except String Unit
  | [] => Except.ok ()
  | n :: rest =>
    match sink n with
    | Except.ok _ => sendAll sink rest
    | Except.error e => Except.error e

/-- One checkServerHealth call including the awaited notification sends: the
storage writes have already happened when handleNotifications runs, so they
survive even when a sink exception is thrown out of the call. -/
def checkServerHealthRun (configs : List HealthCheckConfig) (serverId : String)
    (server : Server) (probeCall : Except String TestResult)
    (startTime now : Int) (sink : Notification → Except String Unit)
    (store : Store) : Store × Except String ServerHealthStatus :=
  let r := checkServerHealth configs serverId server probeCall startTime now store
  match sendAll sink r.notifications with
  | Except.ok _ => (r.store, Except.ok r.healthStatus)
  | Except.error e => (r.store, Except.error e)

/-- Loop body of the MONITORING_TASK handler (lines 365-372): for each
config, when it is enabled and a server with its id exists, await
checkServerHealth; a thrown exception leaves the loop (it is caught only by
the handler-level catch).  Returns the storage contents, the list of server
ids actually probed (in order), and the loop outcome.  probe gives each
target's probe-call outcome. -/
def runEnabledChecks (allConfigs : List HealthCheckConfig)
    (servers : List Server) (probe : String → Except String TestResult)
    (sink : Notification → Except String Unit) (startTime now : Int) :
    List HealthCheckConfig → Store → Store × List String × Except String Unit
  | [], store => (store, [], Except.ok ())
  | config :: rest, store =>
    if config.enabled then
      match servers.find? (fun s => s.id == config.serverId) with
      | some server =>
        let step := checkServerHealthRun allConfigs config.serverId server
          (probe config.serverId) startTime now sink store
        match step.2 with
        | Except.ok _ =>
          let tail := runEnabledChecks allConfigs servers probe sink startTime now rest step.1
          (tail.1, config.serverId :: tail.2.1, tail.2.2)
        | Except.error e => (step.1, [config.serverId], Except.error e)
      | none => runEnabledChecks allConfigs servers probe sink startTime now rest store
    else runEnabledChecks allConfigs servers probe sink startTime now rest store

/-- Embedding of the MONITORING_TASK handler (lines 355-379): iterate the
registered configs over the servers list; any exception escaping the loop
is caught by the handler and converted to the Failed fetch result,
otherwise the handler reports NewData. -/
def monitoringTask (configs : List HealthCheckConfig) (servers : List Server)
    (probe : String → Except String TestResult)
    (sink : Notification → Except String Unit) (startTime now : Int)
    (store : Store) : Store × List String × FetchResult :=
  match runEnabledChecks configs servers probe sink startTime now configs store with
  | (st, probed, Except.ok _) => (st, probed, FetchResult.NewData)
  | (st, probed, Except.error _) => (st, probed, FetchResult.Failed)

-- ===========================================================================
-- MonitoringService.toggleMonitoring
-- ===========================================================================

/-- Embedding of MonitoringService.toggleMonitoring (lines 224-230) on the
in-memory registry, here the list of configs of the healthCheckConfigs map
(one per serverId).  When a config for the server exists, its enabled flag
is replaced and saveConfigs persists the whole registry snapshot; when
none exists nothing happens.  The Bool result records whether saveConfigs
was invoked (the persisted snapshot rewritten). -/
def toggleMonitoring (configs : List HealthCheckConfig) (serverId : String)
    (enabled : Bool) : List HealthCheckConfig × Bool :=
  match configs.find? (fun c => c.serverId == serverId) with
  | some _ =>
    (configs.map (fun c =>
       if c.serverId == serverId then { c with enabled := enabled } else c),
     true)
  | none => (configs, false)

-- ===========================================================================
-- Helper lemmas
-- ===========================================================================

theorem lookup_setKV {α : Type} (l : List (String × α)) (k : String) (v : α) :
    List.lookup k (setKV l k v) = some v := by
  induction l with
  | nil => simp [setKV, List.lookup]
  | cons hd tl ih =>
    obtain ⟨k', v'⟩ := hd
    by_cases h : k' = k
    · subst h; simp [setKV, List.lookup]
    · have hb : (k' == k) = false := beq_eq_false_iff_ne.mpr h
      have hb2 : (k == k') = false := beq_eq_false_iff_ne.mpr (Ne.symm h)
      simp [setKV, hb, List.lookup, hb2, ih]

theorem sendAll_ok (l : List Notification) :
    sendAll (fun _ => Except.ok ()) l = Except.ok () := by
  induction l with
  | nil => rfl
  | cons n rest ih => simpa [sendAll] using ih

-- Concrete fixtures used by the claim witnesses and counterexamples.

def srvA : Server :=
  { id := "srv1", name := "srv1", host := "h1", port := 22
  , username := "root", authMethod := "password" }

def srvB : Server :=
  { id := "srv2", name := "srv2", host := "h2", port := 22
  , username := "root", authMethod := "password" }

def cfgA : HealthCheckConfig :=
  { serverId := "srv1", interval := 15, enabled := true
  , notifyOnFailure := true, notifyOnRecovery := true }

def cfgB : HealthCheckConfig :=
  { serverId := "srv2", interval := 15, enabled := true
  , notifyOnFailure := true, notifyOnRecovery := true }

/-- TestResult of a provider that explicitly reports failure. -/
def failedProbeResult : TestResult :=
  { success := false
  , error := some "Connection refused. The server may be down or SSH is not enabled." }

/-- TestResult of a provider that reports success. -/
def okProbeResult : TestResult := { success := true, error := none }

def failEntry : HealthCheckHistoryEntry :=
  { timestamp := 1, status := ProbeOutcome.failure, responseTime := none
  , error := some "Connection failed" }

def okEntry : HealthCheckHistoryEntry :=
  { timestamp := 2, status := ProbeOutcome.success, responseTime := some 5
  , error := none }

/-- A previously stored online status for srv1. -/
def prevOnlineA : ServerHealthStatus :=
  { serverId := "srv1", status := Status.online, lastChecked := 0
  , lastOnline := some 0, consecutiveFailures := 0, uptimePercentage := 100
  , responseTime := some 5, errorMessage := none }

/-- Notification sink that always throws. -/
def failingSink : Notification → Except String Unit :=
  fun _ => Except.error "Notification sink failure"

/-- Notification sink that always succeeds. -/
def okSink : Notification → Except String Unit :=
  fun _ => Except.ok ()

/-- Store holding a 100-entry retained history for srv1 whose oldest record
is a failure and whose other 99 records are successes, all inside the
trailing 24h window of now = 3. -/
def histStoreA : Store :=
  { statuses := [], histories := [("srv1", failEntry :: List.replicate 99 okEntry)] }

/-- Store in which srv1 has a previously recorded online status. -/
def storeOnlineA : Store :=
  { statuses := [("srv1", prevOnlineA)], histories := [] }

/-- Written from the words of the uptime claim, for comparison with the
code: the percentage derived from ALL retained probe records whose
timestamp lies within the trailing 24-hour window, excluding no retained
in-window record, 100 on an empty window and round-half-up otherwise. -/
def claimedUptimeAllRetained (retained : List HealthCheckHistoryEntry)
    (now : Int) : Nat :=
  let window := retained.filter (inWindow now)
  if window.length = 0 then 100
  else roundPct (window.countP (fun e => e.status == ProbeOutcome.success))
    window.length

-- ===========================================================================
-- Claim theorems
-- ===========================================================================

/-- C1: the claim states that an explicit unsuccessful result from the
provider yields a failure history record and an offline or error status.
The code violates this: checkServerHealth tests the TestResult OBJECT
returned by testConnection with an if, and an object is always truthy, so
a probe whose provider explicitly reports failure is classified online and
recorded in history as a success.  This theorem evaluates the code at that
failing input. -/
theorem c1_explicit_failure_classified_online :
    (checkServerHealth [] "srv1" srvA (Except.ok failedProbeResult) 0 100
        emptyStore).healthStatus.status = Status.online
    ∧ List.lookup "srv1" (checkServerHealth [] "srv1" srvA
        (Except.ok failedProbeResult) 0 100 emptyStore).store.histories
      = some [{ timestamp := 100, status := ProbeOutcome.success
              , responseTime := some 100, error := none }] := by
  constructor
  · rfl
  · rfl

/-- C2 counterexample: the claim states that within one target's
processing the history append happens before the previous status is read.
In the code getServerStatus runs first (line 133) and addHistoryEntry
second (line 138): on a concrete run the trace does not place the append
before the read. -/
theorem c2_read_precedes_append :
    ¬ ((checkServerHealth [cfgA] "srv1" srvA (Except.error "boom") 0 100
          emptyStore).trace.indexOf Event.historyAppend
        < (checkServerHealth [cfgA] "srv1" srvA (Except.error "boom") 0 100
          emptyStore).trace.indexOf Event.statusRead) := by
  decide

/-- C2 amended: within a single target's processing the previously stored
status is read first, then the probe outcome is appended to history, then
the uptime is computed, then the new status is written, and notification
evaluation runs last; the uptime stored in the new status is computed over
the history that already includes the just-recorded probe. -/
theorem c2_pipeline_order (configs : List HealthCheckConfig) (sid : String)
    (srv : Server) (probeCall : Except String TestResult) (t now : Int)
    (store : Store) (cfg : HealthCheckConfig)
    (hcfg : configs.find? (fun c => c.serverId == sid) = some cfg) :
    (checkServerHealth configs sid srv probeCall t now store).trace
      = [Event.probe, Event.statusRead, Event.historyAppend,
         Event.uptimeCalc, Event.statusWrite, Event.notifyEval]
    ∧ (checkServerHealth configs sid srv probeCall t now
        store).healthStatus.uptimePercentage
      = calculateUptime (Except.ok (addHistoryEntry
          ((List.lookup sid store.histories).getD [])
          (probeEntry probeCall t now))) now := by
  constructor
  · simp [checkServerHealth, hcfg]
  · simp [checkServerHealth, lookup_setKV]

/-- C2 amended, witness at a concrete input. -/
theorem c2_pipeline_order_witness :
    (checkServerHealth [cfgA] "srv1" srvA (Except.error "boom") 0 100
        emptyStore).trace
      = [Event.probe, Event.statusRead, Event.historyAppend,
         Event.uptimeCalc, Event.statusWrite, Event.notifyEval] :=
  (c2_pipeline_order [cfgA] "srv1" srvA (Except.error "boom") 0 100
    emptyStore cfgA (by decide)).1

set_option maxRecDepth 100000 in
/-- C3 counterexample: the claim states that the stored uptimePercentage is
derived from all retained in-window records.  On a store retaining 100
in-window records whose oldest is a failure, one more successful check
leaves 101 retained in-window records, yet the stored percentage is 100
because calculateUptime reads the history through getHealthHistory at its
default limit of 100, dropping the oldest (failure) record; the value over
all retained in-window records would be 99. -/
theorem c3_limit100_excludes_retained :
    (checkServerHealth [] "srv1" srvA (Except.ok okProbeResult) 0 3
        histStoreA).healthStatus.uptimePercentage = 100
    ∧ ((List.lookup "srv1" (checkServerHealth [] "srv1" srvA
        (Except.ok okProbeResult) 0 3 histStoreA).store.histories).getD
        []).length = 101
    ∧ claimedUptimeAllRetained ((List.lookup "srv1" (checkServerHealth []
        "srv1" srvA (Except.ok okProbeResult) 0 3
        histStoreA).store.histories).getD []) 3 = 99 := by
  refine ⟨by decide, by decide, by decide⟩

set_option maxRecDepth 100000 in
/-- C3 amended: the uptimePercentage stored by a check equals the claim's
windowed computation applied to only the most recent 100 retained records
(the default read limit of getHealthHistory), not to all retained records;
retained records older than the newest 100 are excluded even inside the
24h window. -/
theorem c3_uptime_from_last100 (configs : List HealthCheckConfig)
    (sid : String) (srv : Server) (probeCall : Except String TestResult)
    (t now : Int) (store : Store) :
    (checkServerHealth configs sid srv probeCall t now
        store).healthStatus.uptimePercentage
      = claimedUptimeAllRetained
          (sliceLast (addHistoryEntry ((List.lookup sid store.histories).getD [])
            (probeEntry probeCall t now)) 100) now := by
  simp [checkServerHealth, calculateUptime, calculateUptimeTry,
    getHealthHistory, lookup_setKV, calculateUptimeCore,
    claimedUptimeAllRetained]

/-- C10 counterexample: the claim states that a failed history read makes
the uptime calculation return 0.  At a concrete failing read the result is
100, not 0. -/
theorem c10_read_failure_not_zero :
    calculateUptime (Except.error "Failed to get health history") 0 = 100
    ∧ calculateUptime (Except.error "Failed to get health history") 0 ≠ 0 := by
  decide

/-- C10 amended: a storage read or parse failure is caught inside
getHealthHistory and converted to the empty history, so the uptime
calculation returns 100 through the empty-window policy; the 0 fallback of
calculateUptime is not reached by a read failure. -/
theorem c10_read_failure_empty_policy (e : String) (now : Int) :
    calculateUptime (Except.error e) now = 100 := rfl

/-- A current status with status error, used as a concrete transition
target. -/
def curErrorA : ServerHealthStatus :=
  { serverId := "srv1", status := Status.error, lastChecked := 100
  , lastOnline := some 0, consecutiveFailures := 1, uptimePercentage := 50
  , responseTime := none, errorMessage := some "boom" }

/-- C5: notification evaluation emits an intent only when a previous status
exists whose status field differs from the new one; it emits nothing on the
very first recorded status and nothing when the two statuses are equal. -/
theorem c5_notify_only_on_transition (server : Server)
    (cur : ServerHealthStatus) (config : HealthCheckConfig) :
    (∀ prev, handleNotifications server cur prev config ≠ [] →
        ∃ p, prev = some p ∧ p.status ≠ cur.status)
    ∧ handleNotifications server cur none config = []
    ∧ ∀ p, p.status = cur.status →
        handleNotifications server cur (some p) config = [] := by
  refine ⟨?_, ?_, ?_⟩
  · intro prev hne
    cases prev with
    | none => exact absurd (by simp [handleNotifications]) hne
    | some p =>
      refine ⟨p, rfl, ?_⟩
      intro heq
      exact hne (by simp [handleNotifications, heq])
  · simp [handleNotifications]
  · intro p heq
    simp [handleNotifications, heq]

/-- C5 witness: at a concrete run that does emit a notification, the
previous status exists and differs. -/
theorem c5_notify_only_on_transition_witness :
    ∃ p, some prevOnlineA = some p ∧ p.status ≠ curErrorA.status :=
  (c5_notify_only_on_transition srvA curErrorA cfgA).1 (some prevOnlineA)
    (by decide)

theorem roundPct_le (s n : Nat) (h : s ≤ n) : roundPct s n ≤ 100 := by
  unfold roundPct
  rcases Nat.eq_zero_or_pos n with h0 | hpos
  · subst h0; simp
  · have h2 : 0 < 2 * n := by omega
    have hlt : (200 * s + n) / (2 * n) < 101 :=
      (Nat.div_lt_iff_lt_mul h2).mpr (by omega)
    omega

theorem roundPct_eq_floor (s n : Nat) (hn : 0 < n) :
    roundPct s n = Nat.floor ((100 * s : ℚ) / n + 1 / 2) := by
  have hn' : (n : ℚ) ≠ 0 := Nat.cast_ne_zero.mpr (by omega)
  have hcast : (100 * s : ℚ) / n + 1 / 2
      = ((200 * s + n : ℕ) : ℚ) / ((2 * n : ℕ) : ℚ) := by
    push_cast
    field_simp
    ring
  rw [hcast, Nat.floor_div_eq_div]
  rfl

/-- C7: the uptime calculation over a history and a current time returns
100 when no record is strictly inside the trailing 24h window, and
otherwise the round-half-up of 100 times the in-window success count over
the in-window total; the result never exceeds 100. -/
theorem c7_uptime_window_formula (history : List HealthCheckHistoryEntry)
    (now : Int) :
    calculateUptimeCore history now
      = (if (history.filter (inWindow now)).length = 0 then 100
         else Nat.floor ((100 * ((history.filter (inWindow now)).countP
             (fun e => e.status == ProbeOutcome.success)) : ℚ)
           / ((history.filter (inWindow now)).length : ℚ) + 1 / 2))
    ∧ calculateUptimeCore history now ≤ 100 := by
  constructor
  · unfold calculateUptimeCore
    by_cases h : (history.filter (inWindow now)).length = 0
    · simp [h]
    · simp only [h, if_neg, ite_false]
      exact roundPct_eq_floor _ _ (Nat.pos_of_ne_zero h)
  · unfold calculateUptimeCore
    by_cases h : (history.filter (inWindow now)).length = 0
    · simp [h]
    · simp only [h, if_neg, ite_false]
      exact roundPct_le _ _ (List.countP_le_length _)

/-- C8: appending a history entry never leaves more than 1000 records, the
result is the most recent suffix of the appended sequence (arrival order
preserved, oldest evicted first), and appending a 1001st record leaves
exactly the 1000 most recent records with the single oldest one removed. -/
theorem c8_history_retention (h : List HealthCheckHistoryEntry)
    (e : HealthCheckHistoryEntry) :
    (addHistoryEntry h e).length ≤ 1000
    ∧ addHistoryEntry h e = (h ++ [e]).drop (h.length + 1 - 1000)
    ∧ (h.length = 1000 →
        addHistoryEntry h e = h.drop 1 ++ [e]
        ∧ (addHistoryEntry h e).length = 1000) := by
  have hlen : (h ++ [e]).length = h.length + 1 := by simp
  refine ⟨?_, ?_, ?_⟩
  · unfold addHistoryEntry sliceLast
    rw [List.length_drop, hlen]
    omega
  · unfold addHistoryEntry sliceLast
    rw [hlen]
  · intro h1000
    have hdrop : addHistoryEntry h e = h.drop 1 ++ [e] := by
      unfold addHistoryEntry sliceLast
      rw [hlen, h1000]
      norm_num [List.drop_append_eq_append_drop, h1000]
    refine ⟨hdrop, ?_⟩
    have hl : (h.drop 1).length = 999 := by rw [List.length_drop, h1000]
    rw [hdrop, List.length_append, hl]
    rfl

/-- C8 witness: appending a 1001st record to a full 1000-record history
leaves the 1000 most recent records, the oldest one evicted. -/
theorem c8_history_retention_witness :
    addHistoryEntry (List.replicate 1000 okEntry) failEntry
      = (List.replicate 1000 okEntry).drop 1 ++ [failEntry] :=
  ((c8_history_retention (List.replicate 1000 okEntry) failEntry).2.2
    (List.length_replicate 1000 okEntry)).1

theorem checkServerHealthRun_okSink (configs : List HealthCheckConfig)
    (sid : String) (srv : Server) (pc : Except String TestResult)
    (t now : Int) (store : Store) :
    checkServerHealthRun configs sid srv pc t now okSink store
      = ((checkServerHealth configs sid srv pc t now store).store,
         Except.ok (checkServerHealth configs sid srv pc t now
           store).healthStatus) := by
  simp only [checkServerHealthRun]
  rw [show sendAll okSink (checkServerHealth configs sid srv pc t now
      store).notifications = Except.ok () from sendAll_ok _]

theorem runEnabledChecks_okSink (allConfigs : List HealthCheckConfig)
    (servers : List Server) (probe : String → Except String TestResult)
    (t now : Int) :
    ∀ (cs : List HealthCheckConfig) (store : Store),
      (runEnabledChecks allConfigs servers probe okSink t now cs store).2.2
          = Except.ok ()
      ∧ ∀ c, c ∈ cs → c.enabled = true →
          (servers.find? (fun s => s.id == c.serverId)).isSome = true →
          c.serverId
            ∈ (runEnabledChecks allConfigs servers probe okSink t now cs
                store).2.1 := by
  intro cs
  induction cs with
  | nil =>
    intro store
    refine ⟨rfl, ?_⟩
    intro c hc
    exact absurd hc (List.not_mem_nil c)
  | cons config rest ih =>
    intro store
    by_cases he : config.enabled = true
    · cases hf : servers.find? (fun s => s.id == config.serverId) with
      | none =>
        have hred : runEnabledChecks allConfigs servers probe okSink t now
              (config :: rest) store
            = runEnabledChecks allConfigs servers probe okSink t now rest
              store := by
          simp [runEnabledChecks, he, hf]
        rw [hred]
        refine ⟨(ih store).1, ?_⟩
        intro c hc hen hsome
        rcases List.mem_cons.mp hc with hceq | hmem
        · subst hceq
          rw [hf] at hsome
          simp at hsome
        · exact (ih store).2 c hmem hen hsome
      | some server =>
        have hred : runEnabledChecks allConfigs servers probe okSink t now
              (config :: rest) store
            = ((runEnabledChecks allConfigs servers probe okSink t now rest
                  (checkServerHealth allConfigs config.serverId server
                    (probe config.serverId) t now store).store).1,
               config.serverId
                 :: (runEnabledChecks allConfigs servers probe okSink t now
                   rest (checkServerHealth allConfigs config.serverId server
                     (probe config.serverId) t now store).store).2.1,
               (runEnabledChecks allConfigs servers probe okSink t now rest
                  (checkServerHealth allConfigs config.serverId server
                    (probe config.serverId) t now store).store).2.2) := by
          simp [runEnabledChecks, he, hf, checkServerHealthRun_okSink]
        rw [hred]
        refine ⟨(ih _).1, ?_⟩
        intro c hc hen hsome
        rcases List.mem_cons.mp hc with hceq | hmem
        · subst hceq
          exact List.mem_cons_self _ _
        · exact List.mem_cons_of_mem _ ((ih _).2 c hmem hen hsome)
    · have he2 : config.enabled = false := by
        cases hb : config.enabled with
        | true => exact absurd hb he
        | false => rfl
      have hred : runEnabledChecks allConfigs servers probe okSink t now
            (config :: rest) store
          = runEnabledChecks allConfigs servers probe okSink t now rest
            store := by
        simp [runEnabledChecks, he2]
      rw [hred]
      refine ⟨(ih store).1, ?_⟩
      intro c hc hen hsome
      rcases List.mem_cons.mp hc with hceq | hmem
      · subst hceq
        rw [hen] at he2
        exact Bool.noConfusion he2
      · exact (ih store).2 c hmem hen hsome

theorem monitoringTask_probed (configs : List HealthCheckConfig)
    (servers : List Server) (probe : String → Except String TestResult)
    (sink : Notification → Except String Unit) (t now : Int) (store : Store) :
    (monitoringTask configs servers probe sink t now store).2.1
      = (runEnabledChecks configs servers probe sink t now configs
          store).2.1 := by
  unfold monitoringTask
  rcases hr : runEnabledChecks configs servers probe sink t now configs store
    with ⟨st, probed, res⟩
  cases res with
  | ok u => rfl
  | error err => rfl

theorem monitoringTask_ok (configs : List HealthCheckConfig)
    (servers : List Server) (probe : String → Except String TestResult)
    (sink : Notification → Except String Unit) (t now : Int) (store : Store)
    (h : (runEnabledChecks configs servers probe sink t now configs
        store).2.2 = Except.ok ()) :
    (monitoringTask configs servers probe sink t now store).2.2
      = FetchResult.NewData := by
  unfold monitoringTask
  rcases hr : runEnabledChecks configs servers probe sink t now configs store
    with ⟨st, probed, res⟩
  rw [hr] at h
  cases res with
  | ok u => rfl
  | error err => exact Except.noConfusion h

/-- C4 counterexample: the claim states that no exception raised inside one
target's pipeline escapes to the per-target iteration.  On a concrete pass
with two enabled targets whose servers both exist, the first target's
status transition triggers a notification, the notification sink throws,
and the exception escapes the target's pipeline to the loop: only the
first target is probed, the second is skipped, and the pass returns
Failed. -/
theorem c4_sink_error_aborts_batch :
    (monitoringTask [cfgA, cfgB] [srvA, srvB]
        (fun _ => Except.error "probe boom") failingSink 0 100
        storeOnlineA).2.1 = ["srv1"]
    ∧ (monitoringTask [cfgA, cfgB] [srvA, srvB]
        (fun _ => Except.error "probe boom") failingSink 0 100
        storeOnlineA).2.2 = FetchResult.Failed
    ∧ cfgB.enabled = true
    ∧ ([srvA, srvB].find? (fun s => s.id == cfgB.serverId)).isSome = true
    ∧ "srv2" ∉ (monitoringTask [cfgA, cfgB] [srvA, srvB]
        (fun _ => Except.error "probe boom") failingSink 0 100
        storeOnlineA).2.1 := by
  decide

/-- C4 amended: probe failures and storage errors are converted to data and
never abort the pass, but a notification-sink exception does escape the
target pipeline; when the sink never throws, every enabled config whose
server exists is probed and the pass reports NewData. -/
theorem c4_ok_sink_processes_all (configs : List HealthCheckConfig)
    (servers : List Server) (probe : String → Except String TestResult)
    (t now : Int) (store : Store) :
    (monitoringTask configs servers probe okSink t now store).2.2
        = FetchResult.NewData
    ∧ ∀ c, c ∈ configs → c.enabled = true →
        (servers.find? (fun s => s.id == c.serverId)).isSome = true →
        c.serverId
          ∈ (monitoringTask configs servers probe okSink t now store).2.1 := by
  have h := runEnabledChecks_okSink configs servers probe t now configs store
  refine ⟨monitoringTask_ok configs servers probe okSink t now store h.1, ?_⟩
  intro c hc hen hsome
  rw [monitoringTask_probed]
  exact h.2 c hc hen hsome

/-- C4 amended, witness at a concrete input. -/
theorem c4_ok_sink_processes_all_witness :
    "srv2" ∈ (monitoringTask [cfgB] [srvB]
        (fun _ => Except.ok okProbeResult) okSink 0 100 emptyStore).2.1 :=
  (c4_ok_sink_processes_all [cfgB] [srvB]
      (fun _ => Except.ok okProbeResult) 0 100 emptyStore).2 cfgB
    (by decide) (by decide) (by decide)

theorem runEnabledChecks_probed_mem (allConfigs : List HealthCheckConfig)
    (servers : List Server) (probe : String → Except String TestResult)
    (sink : Notification → Except String Unit) (t now : Int) :
    ∀ (cs : List HealthCheckConfig) (store : Store) (x : String),
      x ∈ (runEnabledChecks allConfigs servers probe sink t now cs
          store).2.1 →
      ∃ c, c ∈ cs ∧ c.serverId = x := by
  intro cs
  induction cs with
  | nil =>
    intro store x hx
    exact absurd hx (List.not_mem_nil x)
  | cons config rest ih =>
    intro store x hx
    by_cases he : config.enabled = true
    · cases hf : servers.find? (fun s => s.id == config.serverId) with
      | none =>
        have hred : runEnabledChecks allConfigs servers probe sink t now
              (config :: rest) store
            = runEnabledChecks allConfigs servers probe sink t now rest
              store := by
          simp [runEnabledChecks, he, hf]
        rw [hred] at hx
        obtain ⟨c, hc, hcx⟩ := ih store x hx
        exact ⟨c, List.mem_cons_of_mem _ hc, hcx⟩
      | some server =>
        simp only [runEnabledChecks, he, eq_self_iff_true, if_true, hf] at hx
        cases hstep : (checkServerHealthRun allConfigs config.serverId server
            (probe config.serverId) t now sink store).2 with
        | ok u =>
          rw [hstep] at hx
          rcases List.mem_cons.mp hx with hxeq | hmem
          · exact ⟨config, List.mem_cons_self _ _, hxeq.symm⟩
          · obtain ⟨c, hc, hcx⟩ := ih _ x hmem
            exact ⟨c, List.mem_cons_of_mem _ hc, hcx⟩
        | error err =>
          rw [hstep] at hx
          rcases List.mem_cons.mp hx with hxeq | hmem
          · exact ⟨config, List.mem_cons_self _ _, hxeq.symm⟩
          · exact absurd hmem (List.not_mem_nil x)
    · have he2 : config.enabled = false := by
        cases hb : config.enabled with
        | true => exact absurd hb he
        | false => rfl
      have hred : runEnabledChecks allConfigs servers probe sink t now
            (config :: rest) store
          = runEnabledChecks allConfigs servers probe sink t now rest
            store := by
        simp [runEnabledChecks, he2]
      rw [hred] at hx
      obtain ⟨c, hc, hcx⟩ := ih store x hx
      exact ⟨c, List.mem_cons_of_mem _ hc, hcx⟩

/-- C9: toggling monitoring for a server with no registered config leaves
the registry unchanged and does not write the persisted snapshot (the Bool
component records whether saveConfigs ran), and a subsequent monitoring
pass never probes that server. -/
theorem c9_toggle_absent_noop (configs : List HealthCheckConfig)
    (servers : List Server) (probe : String → Except String TestResult)
    (sink : Notification → Except String Unit) (t now : Int) (store : Store)
    (sid : String) (b : Bool)
    (habsent : configs.find? (fun c => c.serverId == sid) = none) :
    toggleMonitoring configs sid b = (configs, false)
    ∧ sid ∉ (monitoringTask configs servers probe sink t now store).2.1 := by
  constructor
  · simp [toggleMonitoring, habsent]
  · intro hmem
    rw [monitoringTask_probed] at hmem
    obtain ⟨c, hc, hcx⟩ := runEnabledChecks_probed_mem configs servers probe
      sink t now configs store sid hmem
    have hnp := List.find?_eq_none.mp habsent c hc
    apply hnp
    rw [hcx]
    exact beq_self_eq_true sid

/-- C9 witness at a concrete input. -/
theorem c9_toggle_absent_noop_witness :
    toggleMonitoring [cfgA] "zzz" false = ([cfgA], false)
    ∧ "zzz" ∉ (monitoringTask [cfgA] [srvA]
        (fun _ => Except.ok okProbeResult) okSink 0 100 emptyStore).2.1 :=
  c9_toggle_absent_noop [cfgA] [srvA] (fun _ => Except.ok okProbeResult)
    okSink 0 100 emptyStore "zzz" false (by decide)

-- ===========================================================================
-- C6: consecutiveFailures
-- ===========================================================================

/-- Iterate checkServerHealth with a probe call that throws (the only probe
shape the code classifies as a failure), threading the store. -/
def iterateFailChecks (configs : List HealthCheckConfig) (sid : String)
    (srv : Server) (e : String) (t now : Int) :
    Nat → Store → Store
  | 0, store => store
  | Nat.succ n, store =>
    iterateFailChecks configs sid srv e t now n
      (checkServerHealth configs sid srv (Except.error e) t now store).store

theorem lookup_status_after_check (configs : List HealthCheckConfig)
    (sid : String) (srv : Server) (pc : Except String TestResult)
    (t now : Int) (store : Store) :
    List.lookup sid (checkServerHealth configs sid srv pc t now
        store).store.statuses
      = some (checkServerHealth configs sid srv pc t now
          store).healthStatus := by
  simp [checkServerHealth, lookup_setKV]

theorem cf_fail_step (configs : List HealthCheckConfig) (sid : String)
    (srv : Server) (e : String) (t now : Int) (store : Store) :
    (checkServerHealth configs sid srv (Except.error e) t now
        store).healthStatus.consecutiveFailures
      = ((List.lookup sid store.statuses).map
          (fun p => p.consecutiveFailures)).getD 0 + 1 := rfl

theorem iterateFail_cf (configs : List HealthCheckConfig) (sid : String)
    (srv : Server) (e : String) (t now : Int) :
    ∀ (N : Nat) (store : Store), 0 < N →
      (List.lookup sid (iterateFailChecks configs sid srv e t now N
          store).statuses).map (fun p => p.consecutiveFailures)
        = some (((List.lookup sid store.statuses).map
            (fun p => p.consecutiveFailures)).getD 0 + N) := by
  intro N
  induction N with
  | zero =>
    intro store h
    exact absurd h (by omega)
  | succ n ih =>
    intro store _
    rcases Nat.eq_zero_or_pos n with h0 | hpos
    · subst h0
      show (List.lookup sid (checkServerHealth configs sid srv
          (Except.error e) t now store).store.statuses).map
          (fun p => p.consecutiveFailures) = _
      rw [lookup_status_after_check]
      simp [cf_fail_step]
    · show (List.lookup sid (iterateFailChecks configs sid srv e t now n
          (checkServerHealth configs sid srv (Except.error e) t now
            store).store).statuses).map (fun p => p.consecutiveFailures) = _
      rw [ih _ hpos]
      rw [lookup_status_after_check]
      simp only [Option.map_some', Option.getD_some]
      rw [cf_fail_step]
      congr 1
      omega

/-- C6: consecutiveFailures is 0 when the derived status is online and the
previous stored value plus one otherwise (one when no previous status
exists); any probe call that returns a result resets it to 0 (such calls
always classify online), and after N consecutive failing probes starting
from an absent status or an online status (which the code always stores
with a zero counter), the stored counter equals N. -/
theorem c6_consecutive_failures (configs : List HealthCheckConfig)
    (sid : String) (srv : Server) (probeCall : Except String TestResult)
    (e : String) (t now : Int) (store : Store) (r : TestResult) (N : Nat)
    (hN : 0 < N)
    (hstart : List.lookup sid store.statuses = none
      ∨ ∃ p, List.lookup sid store.statuses = some p
          ∧ p.status = Status.online ∧ p.consecutiveFailures = 0) :
    ((checkServerHealth configs sid srv probeCall t now
        store).healthStatus.consecutiveFailures
      = if (checkServerHealth configs sid srv probeCall t now
            store).healthStatus.status = Status.online
        then 0
        else ((List.lookup sid store.statuses).map
            (fun p => p.consecutiveFailures)).getD 0 + 1)
    ∧ ((checkServerHealth configs sid srv probeCall t now
          store).healthStatus.status = Status.online →
        (checkServerHealth configs sid srv probeCall t now
          store).healthStatus.consecutiveFailures = 0)
    ∧ (checkServerHealth configs sid srv (Except.ok r) t now
        store).healthStatus.consecutiveFailures = 0
    ∧ (List.lookup sid (iterateFailChecks configs sid srv e t now N
          store).statuses).map (fun p => p.consecutiveFailures)
        = some N := by
  have hstart0 : ((List.lookup sid store.statuses).map
      (fun p => p.consecutiveFailures)).getD 0 = 0 := by
    rcases hstart with hnone | ⟨p, hp, _, hcf⟩
    · rw [hnone]; rfl
    · rw [hp]; simp [hcf]
  refine ⟨?_, ?_, rfl, ?_⟩
  · cases probeCall with
    | ok tr => simp [checkServerHealth, classifyProbe, jsObjectTruthy]
    | error err => simp [checkServerHealth, classifyProbe]
  · intro honline
    cases probeCall with
    | ok tr => rfl
    | error err =>
      exact absurd honline (by simp [checkServerHealth, classifyProbe])
  · rw [iterateFail_cf configs sid srv e t now N store hN, hstart0]
    simp

/-- C6 witness: three failing probes from an empty store leave a stored
counter of 3. -/
theorem c6_consecutive_failures_witness :
    (List.lookup "srv1" (iterateFailChecks [] "srv1" srvA "x" 0 100 3
        emptyStore).statuses).map (fun p => p.consecutiveFailures)
      = some 3 :=
  (c6_consecutive_failures [] "srv1" srvA (Except.ok okProbeResult) "x" 0 100
    emptyStore okProbeResult 3 (by decide) (Or.inl rfl)).2.2.2

end Sshappy
